import Mathlib

/-!
# DS90UB940 fake sensor driver: format negotiation and streaming state

A shallow embedding of `ds90ub940-fake-sensor.c`.  C structs become Lean
structures, unsigned 32-bit fields become `Nat`, `int` becomes `Int`, the
`mode` pointer becomes an `Option` (with `none` for `NULL`), and every
function that writes through a pointer argument returns the updated objects.
The mutex only serialises callers and is not part of the sequential model.
-/

namespace DS90UB940

/-! ## Kernel constants and helpers used by the driver -/

/-- Modelled from the spec: errno value `EINVAL` of the kernel headers, absent
from the driver source; the driver reports every enumeration failure with it. -/
def EINVAL : Int := 22

/-- Modelled from the spec: the pixel-encoding code `MEDIA_BUS_FMT_BGR888_1X24`
of the kernel's media-bus-format header, absent from the driver source. -/
def MEDIA_BUS_FMT_BGR888_1X24 : Nat := 0x1013

/-- Modelled from the spec: the field-order tag `V4L2_FIELD_NONE`
(no interlacing) of the kernel headers, absent from the driver source. -/
def V4L2_FIELD_NONE : Nat := 1

/-- Modelled from the spec: `V4L2_COLORSPACE_REC709`, kernel header constant. -/
def V4L2_COLORSPACE_REC709 : Nat := 3
/-- Modelled from the spec: `V4L2_COLORSPACE_SMPTE240M`, kernel header constant. -/
def V4L2_COLORSPACE_SMPTE240M : Nat := 2
/-- Modelled from the spec: `V4L2_COLORSPACE_JPEG`, kernel header constant. -/
def V4L2_COLORSPACE_JPEG : Nat := 7
/-- Modelled from the spec: `V4L2_COLORSPACE_SRGB` (sRGB primaries), kernel
header constant. -/
def V4L2_COLORSPACE_SRGB : Nat := 8
/-- Modelled from the spec: `V4L2_COLORSPACE_OPRGB`, kernel header constant. -/
def V4L2_COLORSPACE_OPRGB : Nat := 9
/-- Modelled from the spec: `V4L2_COLORSPACE_BT2020`, kernel header constant. -/
def V4L2_COLORSPACE_BT2020 : Nat := 10
/-- Modelled from the spec: `V4L2_COLORSPACE_RAW`, kernel header constant. -/
def V4L2_COLORSPACE_RAW : Nat := 11
/-- Modelled from the spec: `V4L2_COLORSPACE_DCI_P3`, kernel header constant. -/
def V4L2_COLORSPACE_DCI_P3 : Nat := 12

/-- Modelled from the spec: `V4L2_YCBCR_ENC_601`, kernel header constant. -/
def V4L2_YCBCR_ENC_601 : Nat := 1
/-- Modelled from the spec: `V4L2_YCBCR_ENC_709`, kernel header constant. -/
def V4L2_YCBCR_ENC_709 : Nat := 2
/-- Modelled from the spec: `V4L2_YCBCR_ENC_BT2020`, kernel header constant. -/
def V4L2_YCBCR_ENC_BT2020 : Nat := 6
/-- Modelled from the spec: `V4L2_YCBCR_ENC_SMPTE240M`, kernel header constant. -/
def V4L2_YCBCR_ENC_SMPTE240M : Nat := 8

/-- Modelled from the spec: `V4L2_QUANTIZATION_FULL_RANGE`, kernel header
constant. -/
def V4L2_QUANTIZATION_FULL_RANGE : Nat := 1
/-- Modelled from the spec: `V4L2_QUANTIZATION_LIM_RANGE`, kernel header
constant. -/
def V4L2_QUANTIZATION_LIM_RANGE : Nat := 2

/-- Modelled from the spec: `V4L2_XFER_FUNC_709`, kernel header constant. -/
def V4L2_XFER_FUNC_709 : Nat := 1
/-- Modelled from the spec: `V4L2_XFER_FUNC_SRGB`, kernel header constant. -/
def V4L2_XFER_FUNC_SRGB : Nat := 2
/-- Modelled from the spec: `V4L2_XFER_FUNC_OPRGB`, kernel header constant. -/
def V4L2_XFER_FUNC_OPRGB : Nat := 3
/-- Modelled from the spec: `V4L2_XFER_FUNC_SMPTE240M`, kernel header constant. -/
def V4L2_XFER_FUNC_SMPTE240M : Nat := 4
/-- Modelled from the spec: `V4L2_XFER_FUNC_NONE`, kernel header constant. -/
def V4L2_XFER_FUNC_NONE : Nat := 5
/-- Modelled from the spec: `V4L2_XFER_FUNC_DCI_P3`, kernel header constant. -/
def V4L2_XFER_FUNC_DCI_P3 : Nat := 6

/-- Modelled from the spec: `V4L2_SUBDEV_FORMAT_TRY`, the tag of the Trial
target, kernel header constant. -/
def V4L2_SUBDEV_FORMAT_TRY : Nat := 0
/-- Modelled from the spec: `V4L2_SUBDEV_FORMAT_ACTIVE`, the tag of the Active
target, kernel header constant. -/
def V4L2_SUBDEV_FORMAT_ACTIVE : Nat := 1

/-- Modelled from the spec: the default Y'CbCr encoding of a colorspace, the
kernel's `V4L2_MAP_YCBCR_ENC_DEFAULT`, absent from the driver source. -/
def V4L2_MAP_YCBCR_ENC_DEFAULT (colsp : Nat) : Nat :=
  if colsp = V4L2_COLORSPACE_REC709 ∨ colsp = V4L2_COLORSPACE_DCI_P3 then
    V4L2_YCBCR_ENC_709
  else if colsp = V4L2_COLORSPACE_BT2020 then V4L2_YCBCR_ENC_BT2020
  else if colsp = V4L2_COLORSPACE_SMPTE240M then V4L2_YCBCR_ENC_SMPTE240M
  else V4L2_YCBCR_ENC_601

/-- Modelled from the spec: the default quantization of a colorspace, the
kernel's `V4L2_MAP_QUANTIZATION_DEFAULT`, absent from the driver source; the
driver passes `true` (full range for RGB) as first argument. -/
def V4L2_MAP_QUANTIZATION_DEFAULT (is_rgb_or_hsv : Bool) (colsp _ycbcr_enc : Nat) : Nat :=
  if is_rgb_or_hsv = true ∧ colsp = V4L2_COLORSPACE_BT2020 then
    V4L2_QUANTIZATION_LIM_RANGE
  else if is_rgb_or_hsv = true ∨ colsp = V4L2_COLORSPACE_JPEG then
    V4L2_QUANTIZATION_FULL_RANGE
  else V4L2_QUANTIZATION_LIM_RANGE

/-- Modelled from the spec: the default transfer function of a colorspace, the
kernel's `V4L2_MAP_XFER_FUNC_DEFAULT`, absent from the driver source. -/
def V4L2_MAP_XFER_FUNC_DEFAULT (colsp : Nat) : Nat :=
  if colsp = V4L2_COLORSPACE_OPRGB then V4L2_XFER_FUNC_OPRGB
  else if colsp = V4L2_COLORSPACE_SMPTE240M then V4L2_XFER_FUNC_SMPTE240M
  else if colsp = V4L2_COLORSPACE_DCI_P3 then V4L2_XFER_FUNC_DCI_P3
  else if colsp = V4L2_COLORSPACE_RAW then V4L2_XFER_FUNC_NONE
  else if colsp = V4L2_COLORSPACE_SRGB ∨ colsp = V4L2_COLORSPACE_JPEG then
    V4L2_XFER_FUNC_SRGB
  else V4L2_XFER_FUNC_709

/-! ## Data model -/

/-- The kernel's `struct v4l2_fract`. -/
structure v4l2_fract where
  numerator : Nat
  denominator : Nat
  deriving DecidableEq, Repr

/-- The driver's `struct ds90ub940_mode`. -/
structure ds90ub940_mode where
  width : Nat
  height : Nat
  code : Nat
  fps : v4l2_fract
  deriving DecidableEq, Repr

/-- The static table `output_modes[]`. -/
def output_modes : List ds90ub940_mode :=
  [ { width := 1920,
      height := 1200,
      code := MEDIA_BUS_FMT_BGR888_1X24,
      fps := { numerator := 10000, denominator := 600000 } } ]

/-- Modelled from the spec: the kernel's `struct v4l2_mbus_framefmt`, whose
declaration is absent from the driver source; the fields are the ones the spec
lists for a Format and the driver accesses. -/
structure v4l2_mbus_framefmt where
  width : Nat
  height : Nat
  code : Nat
  field : Nat
  colorspace : Nat
  ycbcr_enc : Nat
  quantization : Nat
  xfer_func : Nat
  deriving DecidableEq, Repr

/-- Modelled from the spec: the kernel's `struct v4l2_subdev_format`, the
in/out argument of get and set format, with its target tag `which`. -/
structure v4l2_subdev_format where
  which : Nat
  pad : Nat
  format : v4l2_mbus_framefmt
  deriving DecidableEq, Repr

/-- Modelled from the spec: the kernel's `struct v4l2_subdev_mbus_code_enum`,
reduced to the fields the driver accesses. -/
structure v4l2_subdev_mbus_code_enum where
  index : Nat
  code : Nat
  deriving DecidableEq, Repr

/-- Modelled from the spec: the kernel's `struct v4l2_subdev_frame_size_enum`,
reduced to the fields the driver accesses. -/
structure v4l2_subdev_frame_size_enum where
  index : Nat
  code : Nat
  min_width : Nat
  max_width : Nat
  min_height : Nat
  max_height : Nat
  deriving DecidableEq, Repr

/-- The driver's `struct ds90ub940`, restricted to the fields the format and
streaming operations touch: the stored Active Format `fmt`, the SelectedMode
pointer `mode` (`none` is `NULL`) and the `streaming` flag. -/
structure ds90ub940 where
  fmt : v4l2_mbus_framefmt
  mode : Option ds90ub940_mode
  streaming : Bool
  deriving DecidableEq, Repr

/-- Outcome of a pad-format call: the device, the context's Trial Format, the
caller's in/out request and the return code. -/
structure pad_result where
  dev : ds90ub940
  try_fmt : v4l2_mbus_framefmt
  fmt : v4l2_subdev_format
  ret : Int
  deriving DecidableEq, Repr

/-- Outcome of `open`: the device, the context's Trial Format and the return
code. -/
structure open_result where
  dev : ds90ub940
  try_fmt : v4l2_mbus_framefmt
  ret : Int
  deriving DecidableEq, Repr

/-- Outcome of `enum_mbus_code`: the device, the caller's in/out argument and
the return code. -/
structure code_enum_result where
  dev : ds90ub940
  code : v4l2_subdev_mbus_code_enum
  ret : Int
  deriving DecidableEq, Repr

/-- Outcome of `enum_frame_size`: the caller's in/out argument and the return
code. -/
structure frame_size_result where
  fse : v4l2_subdev_frame_size_enum
  ret : Int
  deriving DecidableEq, Repr

/-- Outcome of `set_stream`: the device, the `dev_dbg` events emitted (each
carries the `enable` argument it prints) and the return code. -/
structure stream_result where
  dev : ds90ub940
  log : List Int
  ret : Int
  deriving DecidableEq, Repr

/-! ## Nearest-size search -/

/-- Modelled from the spec: part of the kernel helper `v4l2_find_nearest_size`,
absent from the driver source: the magnitude of an unsigned 32-bit difference
read as a signed `int`, as the kernel's `abs` does. -/
def abs_s32 (x : Nat) : Int :=
  let sx : Int := if x % 2 ^ 32 < 2 ^ 31 then (x % 2 ^ 32 : Nat) else (x % 2 ^ 32 : Nat) - 2 ^ 32
  if sx < 0 then -sx else sx

/-- Modelled from the spec: part of the kernel helper `v4l2_find_nearest_size`,
absent from the driver source: the width/height distance of one table entry
from the request, in 32-bit arithmetic,
`abs(entry_width - width) + abs(entry_height - height)`. -/
def size_error (e : ds90ub940_mode) (width height : Nat) : Nat :=
  ((abs_s32 (e.width + 2 ^ 32 - width % 2 ^ 32)
      + abs_s32 (e.height + 2 ^ 32 - height % 2 ^ 32)) % 2 ^ 32).toNat

/-- Modelled from the spec: part of the kernel helper `v4l2_find_nearest_size`,
absent from the driver source: its scan over the table, which keeps the last
entry whose error does not exceed the smallest error so far and stops at an
exact match. -/
def find_nearest_loop (width height : Nat) :
    List ds90ub940_mode → Nat → Option ds90ub940_mode → Option ds90ub940_mode
  | [], _, best => best
  | e :: rest, min_error, best =>
    let error := size_error e width height
    if error > min_error then find_nearest_loop width height rest min_error best
    else if error = 0 then some e
    else find_nearest_loop width height rest error (some e)

/-- Modelled from the spec: the kernel helper `v4l2_find_nearest_size`, absent
from the driver source: the deterministic nearest-match search over the
catalog with a width/height distance metric.  It starts from `U32_MAX` and no
best entry, and returns `none` (`NULL`) only for an empty table. -/
def v4l2_find_nearest_size (array : List ds90ub940_mode) (width height : Nat) :
    Option ds90ub940_mode :=
  find_nearest_loop width height array (2 ^ 32 - 1) none

/-! ## Driver operations -/

/-- The zero-filled device that `devm_kzalloc` hands to `probe`. -/
def devm_kzalloc : ds90ub940 :=
  { fmt := { width := 0, height := 0, code := 0, field := 0, colorspace := 0,
             ycbcr_enc := 0, quantization := 0, xfer_func := 0 },
    mode := none,
    streaming := false }

/-- The function `ds90ub940_set_default_format`. -/
def ds90ub940_set_default_format (dev : ds90ub940) : ds90ub940 :=
  let mode := output_modes.get ⟨0, by decide⟩
  let colorspace := V4L2_COLORSPACE_SRGB
  let ycbcr_enc := V4L2_MAP_YCBCR_ENC_DEFAULT colorspace
  { dev with
    mode := some mode,
    fmt := { dev.fmt with
             colorspace := colorspace,
             ycbcr_enc := ycbcr_enc,
             quantization := V4L2_MAP_QUANTIZATION_DEFAULT true colorspace ycbcr_enc,
             xfer_func := V4L2_MAP_XFER_FUNC_DEFAULT colorspace,
             width := mode.width,
             height := mode.height,
             field := V4L2_FIELD_NONE } }

/-- The device state a successful `ds90ub940_probe` leaves: the zero-filled
allocation after `ds90ub940_set_default_format`; the later steps of `probe`
(power management, controls, pads, registration) write none of these fields. -/
def ds90ub940_probe : ds90ub940 :=
  ds90ub940_set_default_format devm_kzalloc

/-- The function `ds90ub940_open`; `try_fmt` is the Trial Format of the opened
context. -/
def ds90ub940_open (dev : ds90ub940) (try_fmt : v4l2_mbus_framefmt) : open_result :=
  let mode0 := output_modes.get ⟨0, by decide⟩
  { dev := dev,
    try_fmt := { try_fmt with
                 width := mode0.width,
                 height := mode0.height,
                 code := mode0.code,
                 field := V4L2_FIELD_NONE },
    ret := 0 }

/-- The function `ds90ub940_enum_mbus_code`; it never touches the device, which
is threaded through unchanged. -/
def ds90ub940_enum_mbus_code (dev : ds90ub940) (code : v4l2_subdev_mbus_code_enum) :
    code_enum_result :=
  if h : code.index ≥ output_modes.length then
    { dev := dev, code := code, ret := -EINVAL }
  else
    { dev := dev,
      code := { code with code := (output_modes.get ⟨code.index, by omega⟩).code },
      ret := 0 }

/-- The function `ds90ub940_enum_frame_size`. -/
def ds90ub940_enum_frame_size (fse : v4l2_subdev_frame_size_enum) :
    frame_size_result :=
  if h : fse.index ≥ output_modes.length then
    { fse := fse, ret := -EINVAL }
  else if fse.code ≠ (output_modes.get ⟨fse.index, by omega⟩).code then
    { fse := fse, ret := -EINVAL }
  else
    let mode0 := output_modes.get ⟨0, by decide⟩
    let fse1 := { fse with min_width := mode0.width }
    let fse2 := { fse1 with max_width := fse1.min_width }
    let fse3 := { fse2 with min_height := mode0.height }
    { fse := { fse3 with max_height := fse3.min_height }, ret := 0 }

/-- The function `ds90ub940_reset_colorspace`. -/
def ds90ub940_reset_colorspace (fmt : v4l2_mbus_framefmt) : v4l2_mbus_framefmt :=
  let colorspace := V4L2_COLORSPACE_SRGB
  let ycbcr_enc := V4L2_MAP_YCBCR_ENC_DEFAULT colorspace
  { fmt with
    colorspace := colorspace,
    ycbcr_enc := ycbcr_enc,
    quantization := V4L2_MAP_QUANTIZATION_DEFAULT true colorspace ycbcr_enc,
    xfer_func := V4L2_MAP_XFER_FUNC_DEFAULT colorspace }

/-- The function `ds90ub940_update_format`; `mode` is the entry the pointer
argument refers to. -/
def ds90ub940_update_format (_dev : ds90ub940) (mode : ds90ub940_mode)
    (fmt : v4l2_subdev_format) : v4l2_subdev_format :=
  { fmt with
    format := ds90ub940_reset_colorspace
      { fmt.format with
        width := mode.width,
        height := mode.height,
        field := V4L2_FIELD_NONE } }

/-- The function `ds90ub940_get_pad_format`; `try_fmt` is the Trial Format of
the caller's context.  Both branches read through the `mode` pointer, so the
call faults (`none`) when it is `NULL`. -/
def ds90ub940_get_pad_format (dev : ds90ub940) (try_fmt : v4l2_mbus_framefmt)
    (fmt : v4l2_subdev_format) : Option pad_result :=
  match dev.mode with
  | none => none
  | some mode =>
    if fmt.which = V4L2_SUBDEV_FORMAT_TRY then
      let try_fmt1 := { try_fmt with code := mode.code }
      some { dev := dev, try_fmt := try_fmt1, fmt := { fmt with format := try_fmt1 }, ret := 0 }
    else
      let fmt1 := ds90ub940_update_format dev mode fmt
      some { dev := dev, try_fmt := try_fmt,
             fmt := { fmt1 with format := { fmt1.format with code := mode.code } },
             ret := 0 }

/-- The function `ds90ub940_set_pad_format`; `try_fmt` is the Trial Format of
the caller's context.  The first statement reads through the `mode` pointer,
so the call faults (`none`) when it is `NULL`. -/
def ds90ub940_set_pad_format (dev : ds90ub940) (try_fmt : v4l2_mbus_framefmt)
    (fmt : v4l2_subdev_format) : Option pad_result :=
  match dev.mode with
  | none => none
  | some cur =>
    let fmt1 := { fmt with format := { fmt.format with code := cur.code } }
    let mode := v4l2_find_nearest_size output_modes fmt1.format.width fmt1.format.height
    if fmt1.which = V4L2_SUBDEV_FORMAT_TRY then
      some { dev := dev, try_fmt := fmt1.format, fmt := fmt1, ret := 0 }
    else
      some { dev := { dev with mode := mode }, try_fmt := try_fmt, fmt := fmt1, ret := 0 }

/-- The function `ds90ub940_set_stream`; `enable` is a C `int`, the stored flag
a C `bool` that is promoted to `0` or `1` for the comparison. -/
def ds90ub940_set_stream (dev : ds90ub940) (enable : Int) : stream_result :=
  if (if dev.streaming then (1 : Int) else 0) = enable then
    { dev := dev, log := [], ret := 0 }
  else
    { dev := { dev with streaming := decide (enable ≠ 0) }, log := [enable], ret := 0 }

/-- Device states reachable from a successful `probe` through `open`,
`get_format`, `set_format` and `set_stream` calls with arbitrary arguments. -/
inductive Reachable : ds90ub940 → Prop
  | probe : Reachable ds90ub940_probe
  | after_open (dev : ds90ub940) (try_fmt : v4l2_mbus_framefmt) :
      Reachable dev → Reachable (ds90ub940_open dev try_fmt).dev
  | after_get_fmt (dev : ds90ub940) (try_fmt : v4l2_mbus_framefmt) (fmt : v4l2_subdev_format)
      (r : pad_result) :
      Reachable dev → ds90ub940_get_pad_format dev try_fmt fmt = some r → Reachable r.dev
  | after_set_fmt (dev : ds90ub940) (try_fmt : v4l2_mbus_framefmt) (fmt : v4l2_subdev_format)
      (r : pad_result) :
      Reachable dev → ds90ub940_set_pad_format dev try_fmt fmt = some r → Reachable r.dev
  | after_set_stream (dev : ds90ub940) (enable : Int) :
      Reachable dev → Reachable (ds90ub940_set_stream dev enable).dev

/-! ## Shared lemmas -/

/-- Entry 0 of the catalog, the only one. -/
def mode0 : ds90ub940_mode := output_modes.get ⟨0, by decide⟩

theorem size_error_le (e : ds90ub940_mode) (width height : Nat) :
    size_error e width height ≤ 2 ^ 32 - 1 := by
  unfold size_error
  have h := Int.emod_lt_of_pos
    (abs_s32 (e.width + 2 ^ 32 - width % 2 ^ 32) + abs_s32 (e.height + 2 ^ 32 - height % 2 ^ 32))
    (show (0 : Int) < 2 ^ 32 by norm_num)
  have h0 := Int.emod_nonneg
    (abs_s32 (e.width + 2 ^ 32 - width % 2 ^ 32) + abs_s32 (e.height + 2 ^ 32 - height % 2 ^ 32))
    (show (2 ^ 32 : Int) ≠ 0 by norm_num)
  omega

/-- The scan returns either the best entry it was started with or an entry of
the list it scanned. -/
theorem find_nearest_loop_mem (width height : Nat) (l : List ds90ub940_mode) :
    ∀ (min_error : Nat) (best : Option ds90ub940_mode),
      find_nearest_loop width height l min_error best = best ∨
      ∃ m ∈ l, find_nearest_loop width height l min_error best = some m := by
  induction l with
  | nil => intro min_error best; left; rfl
  | cons e rest ih =>
    intro min_error best
    simp only [find_nearest_loop]
    by_cases h1 : size_error e width height > min_error
    · rw [if_pos h1]
      rcases ih min_error best with h | ⟨m, hm, h⟩
      · left; exact h
      · right; exact ⟨m, List.mem_cons_of_mem _ hm, h⟩
    · rw [if_neg h1]
      by_cases h2 : size_error e width height = 0
      · rw [if_pos h2]
        right; exact ⟨e, List.mem_cons_self _ _, rfl⟩
      · rw [if_neg h2]
        rcases ih (size_error e width height) (some e) with h | ⟨m, hm, h⟩
        · right; exact ⟨e, List.mem_cons_self _ _, h⟩
        · right; exact ⟨m, List.mem_cons_of_mem _ hm, h⟩

/-- On a non-empty table the nearest-size search returns one of its entries. -/
theorem v4l2_find_nearest_size_mem (array : List ds90ub940_mode) (width height : Nat)
    (hne : array ≠ []) :
    ∃ m ∈ array, v4l2_find_nearest_size array width height = some m := by
  cases array with
  | nil => exact absurd rfl hne
  | cons e rest =>
    unfold v4l2_find_nearest_size
    simp only [find_nearest_loop]
    have hle := size_error_le e width height
    rw [if_neg (by omega)]
    by_cases h2 : size_error e width height = 0
    · rw [if_pos h2]
      exact ⟨e, List.mem_cons_self _ _, rfl⟩
    · rw [if_neg h2]
      rcases find_nearest_loop_mem width height rest (size_error e width height) (some e)
        with h | ⟨m, hm, h⟩
      · exact ⟨e, List.mem_cons_self _ _, h⟩
      · exact ⟨m, List.mem_cons_of_mem _ hm, h⟩

/-- With the driver's single-entry catalog the search always returns entry 0. -/
theorem nearest_output_mode (width height : Nat) :
    v4l2_find_nearest_size output_modes width height = some mode0 := by
  obtain ⟨m, hm, h⟩ := v4l2_find_nearest_size_mem output_modes width height (by decide)
  rw [h]
  simp only [output_modes, List.mem_singleton] at hm
  rw [hm]
  rfl

/-- The call `set_stream` writes neither the stored Active Format nor the
SelectedMode. -/
theorem set_stream_frame (dev : ds90ub940) (enable : Int) :
    (ds90ub940_set_stream dev enable).dev.mode = dev.mode ∧
    (ds90ub940_set_stream dev enable).dev.fmt = dev.fmt := by
  unfold ds90ub940_set_stream
  by_cases h : (if dev.streaming then (1 : Int) else 0) = enable
  · rw [if_pos h]; exact ⟨rfl, rfl⟩
  · rw [if_neg h]; exact ⟨rfl, rfl⟩

/-- In every reachable state the SelectedMode is catalog entry 0, and the
stored Active Format is the one `probe` left. -/
theorem reachable_inv (dev : ds90ub940) (h : Reachable dev) :
    dev.mode = some mode0 ∧ dev.fmt = ds90ub940_probe.fmt := by
  induction h with
  | probe => exact ⟨rfl, rfl⟩
  | after_open dev try_fmt _ ih => exact ih
  | after_get_fmt dev try_fmt fmt r _ hr ih =>
    unfold ds90ub940_get_pad_format at hr
    rw [ih.1] at hr
    simp only at hr
    split at hr <;> (cases hr; exact ih)
  | after_set_fmt dev try_fmt fmt r _ hr ih =>
    unfold ds90ub940_set_pad_format at hr
    rw [ih.1] at hr
    simp only at hr
    split at hr
    · cases hr; exact ih
    · cases hr
      exact ⟨nearest_output_mode _ _, ih.2⟩
  | after_set_stream dev enable _ ih =>
    obtain ⟨h1, h2⟩ := set_stream_frame dev enable
    rw [h1, h2]
    exact ih

/-- What `get_pad_format` computes for a target other than Trial. -/
theorem get_pad_format_active (dev : ds90ub940) (m : ds90ub940_mode)
    (try_fmt : v4l2_mbus_framefmt) (fmt : v4l2_subdev_format)
    (hm : dev.mode = some m) (hw : fmt.which ≠ V4L2_SUBDEV_FORMAT_TRY) :
    ds90ub940_get_pad_format dev try_fmt fmt =
      some { dev := dev, try_fmt := try_fmt,
             fmt := { fmt with
                      format := { ds90ub940_reset_colorspace
                                    { fmt.format with
                                      width := m.width, height := m.height,
                                      field := V4L2_FIELD_NONE } with
                                  code := m.code } },
             ret := 0 } := by
  unfold ds90ub940_get_pad_format
  rw [hm]
  simp only [if_neg hw, ds90ub940_update_format]

/-- What `get_pad_format` computes for the Trial target. -/
theorem get_pad_format_try (dev : ds90ub940) (m : ds90ub940_mode)
    (try_fmt : v4l2_mbus_framefmt) (fmt : v4l2_subdev_format)
    (hm : dev.mode = some m) (hw : fmt.which = V4L2_SUBDEV_FORMAT_TRY) :
    ds90ub940_get_pad_format dev try_fmt fmt =
      some { dev := dev, try_fmt := { try_fmt with code := m.code },
             fmt := { fmt with format := { try_fmt with code := m.code } },
             ret := 0 } := by
  unfold ds90ub940_get_pad_format
  rw [hm]
  simp only [if_pos hw]

/-- What `set_pad_format` computes for a target other than Trial. -/
theorem set_pad_format_active (dev : ds90ub940) (m : ds90ub940_mode)
    (try_fmt : v4l2_mbus_framefmt) (fmt : v4l2_subdev_format)
    (hm : dev.mode = some m) (hw : fmt.which ≠ V4L2_SUBDEV_FORMAT_TRY) :
    ds90ub940_set_pad_format dev try_fmt fmt =
      some { dev := { dev with mode := some mode0 }, try_fmt := try_fmt,
             fmt := { fmt with format := { fmt.format with code := m.code } },
             ret := 0 } := by
  unfold ds90ub940_set_pad_format
  rw [hm]
  simp only [if_neg hw, nearest_output_mode]

/-- What `set_pad_format` computes for the Trial target. -/
theorem set_pad_format_try (dev : ds90ub940) (m : ds90ub940_mode)
    (try_fmt : v4l2_mbus_framefmt) (fmt : v4l2_subdev_format)
    (hm : dev.mode = some m) (hw : fmt.which = V4L2_SUBDEV_FORMAT_TRY) :
    ds90ub940_set_pad_format dev try_fmt fmt =
      some { dev := dev, try_fmt := { fmt.format with code := m.code },
             fmt := { fmt with format := { fmt.format with code := m.code } },
             ret := 0 } := by
  unfold ds90ub940_set_pad_format
  rw [hm]
  simp only [if_pos hw]

theorem active_ne_try : V4L2_SUBDEV_FORMAT_ACTIVE ≠ V4L2_SUBDEV_FORMAT_TRY := by decide

/-! ## Format negotiation -/

/-- C1: in every reachable device state, for every request, `set_format` on
the Active target followed by `get_format` on the Active target both return
success, and the Format returned by the get has the width, the height and the
code of one single entry of `output_modes`. -/
theorem set_then_get_active_matches_catalog (dev : ds90ub940)
    (try_fmt : v4l2_mbus_framefmt) (req q : v4l2_subdev_format)
    (hr : Reachable dev)
    (hreq : req.which = V4L2_SUBDEV_FORMAT_ACTIVE)
    (hq : q.which = V4L2_SUBDEV_FORMAT_ACTIVE) :
    ∃ r1 r2,
      ds90ub940_set_pad_format dev try_fmt req = some r1 ∧
      ds90ub940_get_pad_format r1.dev r1.try_fmt q = some r2 ∧
      r1.ret = 0 ∧ r2.ret = 0 ∧
      ∃ m ∈ output_modes,
        r2.fmt.format.width = m.width ∧
        r2.fmt.format.height = m.height ∧
        r2.fmt.format.code = m.code := by
  have hreq1 : req.which ≠ V4L2_SUBDEV_FORMAT_TRY := by rw [hreq]; exact active_ne_try
  have hq1 : q.which ≠ V4L2_SUBDEV_FORMAT_TRY := by rw [hq]; exact active_ne_try
  have hset := set_pad_format_active dev mode0 try_fmt req (reachable_inv dev hr).1 hreq1
  refine ⟨_, _, hset, get_pad_format_active _ mode0 _ q rfl hq1, rfl, rfl, mode0, ?_, rfl, rfl, rfl⟩
  simp [output_modes, mode0]

/-- C1, witness: right after `probe`, a 640x480 request on the Active target. -/
theorem set_then_get_active_matches_catalog_witness :
    ∃ r1 r2,
      ds90ub940_set_pad_format ds90ub940_probe devm_kzalloc.fmt
        { which := V4L2_SUBDEV_FORMAT_ACTIVE, pad := 0,
          format := { devm_kzalloc.fmt with width := 640, height := 480 } } = some r1 ∧
      ds90ub940_get_pad_format r1.dev r1.try_fmt
        { which := V4L2_SUBDEV_FORMAT_ACTIVE, pad := 0, format := devm_kzalloc.fmt } = some r2 ∧
      r1.ret = 0 ∧ r2.ret = 0 ∧
      ∃ m ∈ output_modes,
        r2.fmt.format.width = m.width ∧
        r2.fmt.format.height = m.height ∧
        r2.fmt.format.code = m.code :=
  set_then_get_active_matches_catalog ds90ub940_probe devm_kzalloc.fmt
    { which := V4L2_SUBDEV_FORMAT_ACTIVE, pad := 0,
      format := { devm_kzalloc.fmt with width := 640, height := 480 } }
    { which := V4L2_SUBDEV_FORMAT_ACTIVE, pad := 0, format := devm_kzalloc.fmt }
    Reachable.probe rfl rfl

/-- C2, counterexample: right after `probe`, `set_format` on the Active target
with a 640x480 request hands back a Format that is still 640x480, not the
catalog entry's 1920x1200. -/
theorem set_active_hands_back_requested_size :
    ∃ r,
      ds90ub940_set_pad_format ds90ub940_probe devm_kzalloc.fmt
        { which := V4L2_SUBDEV_FORMAT_ACTIVE, pad := 0,
          format := { devm_kzalloc.fmt with width := 640, height := 480 } } = some r ∧
      r.fmt.format.width = 640 ∧ r.fmt.format.height = 480 ∧
      ¬ (r.fmt.format.width = 1920 ∧ r.fmt.format.height = 1200) := by
  refine ⟨_, set_pad_format_active ds90ub940_probe mode0 _ _ rfl (by decide), rfl, rfl, ?_⟩
  decide

/-- C2, amended: for every device state with a valid SelectedMode and every
request, `set_format` on the Active target returns success and changes the
device only in its SelectedMode, which becomes the catalog entry, of width
1920 and height 1200 (stored Active Format and streaming flag are unchanged,
and so is the context's Trial Format); the next `get_format` on the Active
target returns width 1920, height 1200 and the catalog entry's code.  The
Format handed back by `set_format` itself is the request with exactly one
field replaced: its code becomes the code of the SelectedMode as it was before
the call; width, height, field order, colorspace, Y'CbCr encoding,
quantization and transfer function are the caller's, and so are the target tag
and the pad. -/
theorem set_active_selects_catalog_mode (dev : ds90ub940) (cur : ds90ub940_mode)
    (try_fmt : v4l2_mbus_framefmt) (req q : v4l2_subdev_format)
    (hm : dev.mode = some cur)
    (hreq : req.which = V4L2_SUBDEV_FORMAT_ACTIVE)
    (hq : q.which = V4L2_SUBDEV_FORMAT_ACTIVE) :
    ∃ r1 r2 sel,
      ds90ub940_set_pad_format dev try_fmt req = some r1 ∧
      r1.ret = 0 ∧
      r1.dev = { dev with mode := some sel } ∧
      r1.dev.fmt = dev.fmt ∧ r1.dev.streaming = dev.streaming ∧
      sel ∈ output_modes ∧ sel.width = 1920 ∧ sel.height = 1200 ∧
      r1.try_fmt = try_fmt ∧
      r1.fmt = { req with format := { req.format with code := cur.code } } ∧
      r1.fmt.which = req.which ∧ r1.fmt.pad = req.pad ∧
      r1.fmt.format.width = req.format.width ∧
      r1.fmt.format.height = req.format.height ∧
      r1.fmt.format.field = req.format.field ∧
      r1.fmt.format.colorspace = req.format.colorspace ∧
      r1.fmt.format.ycbcr_enc = req.format.ycbcr_enc ∧
      r1.fmt.format.quantization = req.format.quantization ∧
      r1.fmt.format.xfer_func = req.format.xfer_func ∧
      r1.fmt.format.code = cur.code ∧
      ds90ub940_get_pad_format r1.dev r1.try_fmt q = some r2 ∧
      r2.ret = 0 ∧
      r2.fmt.format.width = 1920 ∧ r2.fmt.format.height = 1200 ∧
      r2.fmt.format.code = sel.code := by
  have hreq1 : req.which ≠ V4L2_SUBDEV_FORMAT_TRY := by rw [hreq]; exact active_ne_try
  have hq1 : q.which ≠ V4L2_SUBDEV_FORMAT_TRY := by rw [hq]; exact active_ne_try
  refine ⟨_, _, mode0, set_pad_format_active dev cur try_fmt req hm hreq1, rfl, rfl, rfl, rfl,
    ?_, rfl, rfl, rfl, rfl, rfl, rfl, rfl, rfl, rfl, rfl, rfl, rfl, rfl, rfl,
    get_pad_format_active _ mode0 _ q rfl hq1, rfl, rfl, rfl, rfl⟩
  simp [output_modes, mode0]

/-- C2, amended, witness: a device whose SelectedMode pointer refers to an
800x600 entry of code 9, and a 640x480 request with foreign field order and
colorspace metadata: the handed-back Format is the request with code 9, the
new SelectedMode is the 1920x1200 catalog entry. -/
theorem set_active_selects_catalog_mode_witness :
    ∃ r1 r2 sel,
      ds90ub940_set_pad_format
        { ds90ub940_probe with
          mode := some { width := 800, height := 600, code := 9,
                         fps := { numerator := 1, denominator := 30 } } }
        devm_kzalloc.fmt
        { which := V4L2_SUBDEV_FORMAT_ACTIVE, pad := 0,
          format := { width := 640, height := 480, code := 7, field := 4, colorspace := 3,
                      ycbcr_enc := 2, quantization := 2, xfer_func := 1 } } = some r1 ∧
      r1.ret = 0 ∧
      r1.dev = { ds90ub940_probe with mode := some sel } ∧
      r1.dev.fmt = ds90ub940_probe.fmt ∧ r1.dev.streaming = false ∧
      sel ∈ output_modes ∧ sel.width = 1920 ∧ sel.height = 1200 ∧
      r1.try_fmt = devm_kzalloc.fmt ∧
      r1.fmt = { which := V4L2_SUBDEV_FORMAT_ACTIVE, pad := 0,
                 format := { width := 640, height := 480, code := 9, field := 4,
                             colorspace := 3, ycbcr_enc := 2, quantization := 2,
                             xfer_func := 1 } } ∧
      r1.fmt.which = V4L2_SUBDEV_FORMAT_ACTIVE ∧ r1.fmt.pad = 0 ∧
      r1.fmt.format.width = 640 ∧
      r1.fmt.format.height = 480 ∧
      r1.fmt.format.field = 4 ∧
      r1.fmt.format.colorspace = 3 ∧
      r1.fmt.format.ycbcr_enc = 2 ∧
      r1.fmt.format.quantization = 2 ∧
      r1.fmt.format.xfer_func = 1 ∧
      r1.fmt.format.code = 9 ∧
      ds90ub940_get_pad_format r1.dev r1.try_fmt
        { which := V4L2_SUBDEV_FORMAT_ACTIVE, pad := 0, format := devm_kzalloc.fmt } = some r2 ∧
      r2.ret = 0 ∧
      r2.fmt.format.width = 1920 ∧ r2.fmt.format.height = 1200 ∧
      r2.fmt.format.code = sel.code :=
  set_active_selects_catalog_mode
    { ds90ub940_probe with
      mode := some { width := 800, height := 600, code := 9,
                     fps := { numerator := 1, denominator := 30 } } }
    { width := 800, height := 600, code := 9, fps := { numerator := 1, denominator := 30 } }
    devm_kzalloc.fmt
    { which := V4L2_SUBDEV_FORMAT_ACTIVE, pad := 0,
      format := { width := 640, height := 480, code := 7, field := 4, colorspace := 3,
                  ycbcr_enc := 2, quantization := 2, xfer_func := 1 } }
    { which := V4L2_SUBDEV_FORMAT_ACTIVE, pad := 0, format := devm_kzalloc.fmt }
    rfl rfl rfl

/-- C9: for every device state with a valid SelectedMode and every request,
`set_format` on the Trial target returns success and leaves the device
(SelectedMode, stored Active Format, streaming flag) unchanged; the Trial
Format becomes the requested Format with the caller's width, height, field
order and colorspace metadata and with the SelectedMode's code, and the same
Format is handed back to the caller. -/
theorem set_trial_stores_request (dev : ds90ub940) (cur : ds90ub940_mode)
    (try_fmt : v4l2_mbus_framefmt) (req : v4l2_subdev_format)
    (hm : dev.mode = some cur)
    (hreq : req.which = V4L2_SUBDEV_FORMAT_TRY) :
    ∃ r,
      ds90ub940_set_pad_format dev try_fmt req = some r ∧
      r.ret = 0 ∧
      r.dev = dev ∧
      r.dev.mode = dev.mode ∧ r.dev.fmt = dev.fmt ∧ r.dev.streaming = dev.streaming ∧
      r.try_fmt = { req.format with code := cur.code } ∧
      r.try_fmt.width = req.format.width ∧
      r.try_fmt.height = req.format.height ∧
      r.try_fmt.field = req.format.field ∧
      r.try_fmt.colorspace = req.format.colorspace ∧
      r.try_fmt.ycbcr_enc = req.format.ycbcr_enc ∧
      r.try_fmt.quantization = req.format.quantization ∧
      r.try_fmt.xfer_func = req.format.xfer_func ∧
      r.try_fmt.code = cur.code ∧
      r.fmt.format = r.try_fmt ∧
      r.fmt.which = req.which ∧ r.fmt.pad = req.pad :=
  ⟨_, set_pad_format_try dev cur try_fmt req hm hreq, rfl, rfl, rfl, rfl, rfl, rfl, rfl, rfl, rfl,
    rfl, rfl, rfl, rfl, rfl, rfl, rfl, rfl⟩

/-- C9, witness: right after `probe`, a 640x480 Trial request whose code and
colorspace metadata differ from the catalog's. -/
theorem set_trial_stores_request_witness :
    ∃ r,
      ds90ub940_set_pad_format ds90ub940_probe devm_kzalloc.fmt
        { which := V4L2_SUBDEV_FORMAT_TRY, pad := 0,
          format := { width := 640, height := 480, code := 7, field := 4, colorspace := 3,
                      ycbcr_enc := 2, quantization := 2, xfer_func := 1 } } = some r ∧
      r.ret = 0 ∧
      r.dev = ds90ub940_probe ∧
      r.dev.mode = ds90ub940_probe.mode ∧ r.dev.fmt = ds90ub940_probe.fmt ∧
      r.dev.streaming = ds90ub940_probe.streaming ∧
      r.try_fmt = { width := 640, height := 480, code := MEDIA_BUS_FMT_BGR888_1X24, field := 4,
                    colorspace := 3, ycbcr_enc := 2, quantization := 2, xfer_func := 1 } ∧
      r.try_fmt.width = 640 ∧
      r.try_fmt.height = 480 ∧
      r.try_fmt.field = 4 ∧
      r.try_fmt.colorspace = 3 ∧
      r.try_fmt.ycbcr_enc = 2 ∧
      r.try_fmt.quantization = 2 ∧
      r.try_fmt.xfer_func = 1 ∧
      r.try_fmt.code = MEDIA_BUS_FMT_BGR888_1X24 ∧
      r.fmt.format = r.try_fmt ∧
      r.fmt.which = V4L2_SUBDEV_FORMAT_TRY ∧ r.fmt.pad = 0 :=
  set_trial_stores_request ds90ub940_probe mode0 devm_kzalloc.fmt
    { which := V4L2_SUBDEV_FORMAT_TRY, pad := 0,
      format := { width := 640, height := 480, code := 7, field := 4, colorspace := 3,
                  ycbcr_enc := 2, quantization := 2, xfer_func := 1 } }
    rfl rfl

/-- C10: for every device state with a valid SelectedMode and every stored
Trial Format, `get_format` on the Trial target returns success and a copy of
the stored Trial Format in which the code is the SelectedMode's code and every
other field is the stored value; the stored Trial Format changes only in its
code, which becomes the SelectedMode's code, and the device (SelectedMode,
stored Active Format, streaming flag) is unchanged. -/
theorem get_trial_syncs_code (dev : ds90ub940) (cur : ds90ub940_mode)
    (try_fmt : v4l2_mbus_framefmt) (q : v4l2_subdev_format)
    (hm : dev.mode = some cur)
    (hq : q.which = V4L2_SUBDEV_FORMAT_TRY) :
    ∃ r,
      ds90ub940_get_pad_format dev try_fmt q = some r ∧
      r.ret = 0 ∧
      r.fmt.format.code = cur.code ∧
      r.fmt.format.width = try_fmt.width ∧
      r.fmt.format.height = try_fmt.height ∧
      r.fmt.format.field = try_fmt.field ∧
      r.fmt.format.colorspace = try_fmt.colorspace ∧
      r.fmt.format.ycbcr_enc = try_fmt.ycbcr_enc ∧
      r.fmt.format.quantization = try_fmt.quantization ∧
      r.fmt.format.xfer_func = try_fmt.xfer_func ∧
      r.try_fmt = { try_fmt with code := cur.code } ∧
      r.fmt.format = r.try_fmt ∧
      r.dev = dev ∧
      r.dev.mode = dev.mode ∧ r.dev.fmt = dev.fmt ∧ r.dev.streaming = dev.streaming :=
  ⟨_, get_pad_format_try dev cur try_fmt q hm hq, rfl, rfl, rfl, rfl, rfl, rfl, rfl, rfl, rfl,
    rfl, rfl, rfl, rfl, rfl, rfl⟩

/-- C10, witness: right after `probe`, a stored 640x480 Trial Format with a
foreign code. -/
theorem get_trial_syncs_code_witness :
    ∃ r,
      ds90ub940_get_pad_format ds90ub940_probe
        { width := 640, height := 480, code := 7, field := 4, colorspace := 3,
          ycbcr_enc := 2, quantization := 2, xfer_func := 1 }
        { which := V4L2_SUBDEV_FORMAT_TRY, pad := 0, format := devm_kzalloc.fmt } = some r ∧
      r.ret = 0 ∧
      r.fmt.format.code = MEDIA_BUS_FMT_BGR888_1X24 ∧
      r.fmt.format.width = 640 ∧
      r.fmt.format.height = 480 ∧
      r.fmt.format.field = 4 ∧
      r.fmt.format.colorspace = 3 ∧
      r.fmt.format.ycbcr_enc = 2 ∧
      r.fmt.format.quantization = 2 ∧
      r.fmt.format.xfer_func = 1 ∧
      r.try_fmt = { width := 640, height := 480, code := MEDIA_BUS_FMT_BGR888_1X24, field := 4,
                    colorspace := 3, ycbcr_enc := 2, quantization := 2, xfer_func := 1 } ∧
      r.fmt.format = r.try_fmt ∧
      r.dev = ds90ub940_probe ∧
      r.dev.mode = ds90ub940_probe.mode ∧ r.dev.fmt = ds90ub940_probe.fmt ∧
      r.dev.streaming = ds90ub940_probe.streaming :=
  get_trial_syncs_code ds90ub940_probe mode0
    { width := 640, height := 480, code := 7, field := 4, colorspace := 3,
      ycbcr_enc := 2, quantization := 2, xfer_func := 1 }
    { which := V4L2_SUBDEV_FORMAT_TRY, pad := 0, format := devm_kzalloc.fmt }
    rfl rfl

/-! ## Default format, construction and open -/

/-- C3: right after `probe`, `get_format` on the Active target returns a Format
that agrees with the stored Active Format on width, height, field order,
colorspace, Y'CbCr encoding, quantization and transfer function, but not on
the code: the stored code is still the 0 of the zero-filled allocation, the
returned code is `MEDIA_BUS_FMT_BGR888_1X24`. -/
theorem probe_read_back_code_differs :
    ∃ r,
      ds90ub940_get_pad_format ds90ub940_probe devm_kzalloc.fmt
        { which := V4L2_SUBDEV_FORMAT_ACTIVE, pad := 0, format := devm_kzalloc.fmt } = some r ∧
      r.ret = 0 ∧
      r.fmt.format.width = ds90ub940_probe.fmt.width ∧
      r.fmt.format.height = ds90ub940_probe.fmt.height ∧
      r.fmt.format.field = ds90ub940_probe.fmt.field ∧
      r.fmt.format.colorspace = ds90ub940_probe.fmt.colorspace ∧
      r.fmt.format.ycbcr_enc = ds90ub940_probe.fmt.ycbcr_enc ∧
      r.fmt.format.quantization = ds90ub940_probe.fmt.quantization ∧
      r.fmt.format.xfer_func = ds90ub940_probe.fmt.xfer_func ∧
      ds90ub940_probe.fmt.code = 0 ∧
      r.fmt.format.code = MEDIA_BUS_FMT_BGR888_1X24 ∧
      r.fmt.format.code ≠ ds90ub940_probe.fmt.code := by
  refine ⟨_, get_pad_format_active ds90ub940_probe mode0 _ _ rfl (by decide), rfl, rfl, rfl, rfl,
    rfl, rfl, rfl, rfl, rfl, rfl, ?_⟩
  decide

/-- C4: right after `probe` the stored Active Format has code 0 while the
SelectedMode is catalog entry 0 with code `MEDIA_BUS_FMT_BGR888_1X24`, so the
two codes differ. -/
theorem probe_stored_code_differs_from_mode :
    ds90ub940_probe.fmt.code = 0 ∧
    ds90ub940_probe.mode = some mode0 ∧
    mode0.code = MEDIA_BUS_FMT_BGR888_1X24 ∧
    some ds90ub940_probe.fmt.code ≠ ds90ub940_probe.mode.map ds90ub940_mode.code := by
  refine ⟨rfl, rfl, rfl, ?_⟩
  decide

/-- No call ever writes the stored code: in every reachable state it is 0 and
the SelectedMode's code is `MEDIA_BUS_FMT_BGR888_1X24`. -/
theorem reachable_stored_code (dev : ds90ub940) (h : Reachable dev) :
    dev.fmt.code = 0 ∧
    dev.mode.map ds90ub940_mode.code = some MEDIA_BUS_FMT_BGR888_1X24 := by
  obtain ⟨h1, h2⟩ := reachable_inv dev h
  rw [h1, h2]
  exact ⟨rfl, rfl⟩

/-- In every reachable state the code that `get_format` reports for the Active
target is the SelectedMode's code. -/
theorem reachable_reported_code (dev : ds90ub940) (try_fmt : v4l2_mbus_framefmt)
    (q : v4l2_subdev_format) (h : Reachable dev)
    (hq : q.which = V4L2_SUBDEV_FORMAT_ACTIVE) :
    ∃ r, ds90ub940_get_pad_format dev try_fmt q = some r ∧
      some r.fmt.format.code = dev.mode.map ds90ub940_mode.code := by
  have hq1 : q.which ≠ V4L2_SUBDEV_FORMAT_TRY := by rw [hq]; exact active_ne_try
  have hm := (reachable_inv dev h).1
  refine ⟨_, get_pad_format_active dev mode0 try_fmt q hm hq1, ?_⟩
  rw [hm]
  rfl

/-- C8, counterexample: opening a context whose Trial Format is zero-filled
leaves its colorspace at 0, while the Format `set_default_format` installs has
colorspace `V4L2_COLORSPACE_SRGB`. -/
theorem open_keeps_prior_colorspace :
    (ds90ub940_open ds90ub940_probe devm_kzalloc.fmt).try_fmt.colorspace = 0 ∧
    (ds90ub940_set_default_format devm_kzalloc).fmt.colorspace = V4L2_COLORSPACE_SRGB ∧
    (ds90ub940_open ds90ub940_probe devm_kzalloc.fmt).try_fmt.colorspace ≠
      (ds90ub940_set_default_format devm_kzalloc).fmt.colorspace := by
  refine ⟨rfl, rfl, ?_⟩
  decide

/-- C8, amended: for every device state and every prior content of the
context's Trial Format, `open` returns success and sets the Trial Format's
width, height and field order to the values `set_default_format` installs
(1920, 1200, no interlacing) and its code to the code of catalog entry 0; the
Trial Format's colorspace, Y'CbCr encoding, quantization and transfer function
keep their prior content, and the device (SelectedMode, stored Active Format,
streaming flag) is unchanged. -/
theorem open_installs_size_code_field (dev d0 : ds90ub940) (try_fmt : v4l2_mbus_framefmt) :
    (ds90ub940_open dev try_fmt).ret = 0 ∧
    (ds90ub940_open dev try_fmt).try_fmt.width = (ds90ub940_set_default_format d0).fmt.width ∧
    (ds90ub940_open dev try_fmt).try_fmt.height = (ds90ub940_set_default_format d0).fmt.height ∧
    (ds90ub940_open dev try_fmt).try_fmt.field = (ds90ub940_set_default_format d0).fmt.field ∧
    (ds90ub940_open dev try_fmt).try_fmt.width = 1920 ∧
    (ds90ub940_open dev try_fmt).try_fmt.height = 1200 ∧
    (ds90ub940_open dev try_fmt).try_fmt.field = V4L2_FIELD_NONE ∧
    some (ds90ub940_open dev try_fmt).try_fmt.code = output_modes[0]?.map ds90ub940_mode.code ∧
    (ds90ub940_open dev try_fmt).try_fmt.colorspace = try_fmt.colorspace ∧
    (ds90ub940_open dev try_fmt).try_fmt.ycbcr_enc = try_fmt.ycbcr_enc ∧
    (ds90ub940_open dev try_fmt).try_fmt.quantization = try_fmt.quantization ∧
    (ds90ub940_open dev try_fmt).try_fmt.xfer_func = try_fmt.xfer_func ∧
    (ds90ub940_open dev try_fmt).dev = dev ∧
    (ds90ub940_open dev try_fmt).dev.mode = dev.mode ∧
    (ds90ub940_open dev try_fmt).dev.fmt = dev.fmt ∧
    (ds90ub940_open dev try_fmt).dev.streaming = dev.streaming :=
  ⟨rfl, rfl, rfl, rfl, rfl, rfl, rfl, rfl, rfl, rfl, rfl, rfl, rfl, rfl, rfl, rfl⟩

/-! ## Capability enumeration -/

/-- C5: for every index, `enum_mbus_code` fails, with `-EINVAL`, exactly when
the index is at least the catalog size; when it succeeds the code it returns
is the code of the catalog entry at that index; the device is unchanged. -/
theorem enum_mbus_code_spec (dev : ds90ub940) (code : v4l2_subdev_mbus_code_enum) :
    ((ds90ub940_enum_mbus_code dev code).ret ≠ 0 ↔ code.index ≥ output_modes.length) ∧
    ((ds90ub940_enum_mbus_code dev code).ret = -EINVAL ↔ code.index ≥ output_modes.length) ∧
    ((ds90ub940_enum_mbus_code dev code).ret = 0 →
      some (ds90ub940_enum_mbus_code dev code).code.code =
        output_modes[code.index]?.map ds90ub940_mode.code ∧
      (ds90ub940_enum_mbus_code dev code).code.index = code.index) ∧
    (ds90ub940_enum_mbus_code dev code).dev = dev := by
  unfold ds90ub940_enum_mbus_code
  by_cases h : code.index ≥ output_modes.length
  · rw [dif_pos h]
    simp [h, EINVAL]
  · rw [dif_neg h]
    have hlt : code.index < output_modes.length := by omega
    simp [h, EINVAL, List.getElem?_eq_getElem hlt]

/-- C5, witness: index 0 succeeds with the catalog's code, index 1 fails. -/
theorem enum_mbus_code_spec_witness :
    (ds90ub940_enum_mbus_code ds90ub940_probe { index := 0, code := 0 }).ret = 0 ∧
    some (ds90ub940_enum_mbus_code ds90ub940_probe { index := 0, code := 0 }).code.code =
      output_modes[0]?.map ds90ub940_mode.code ∧
    (ds90ub940_enum_mbus_code ds90ub940_probe { index := 1, code := 0 }).ret = -EINVAL ∧
    (ds90ub940_enum_mbus_code ds90ub940_probe { index := 0, code := 0 }).dev = ds90ub940_probe :=
  ⟨by decide,
   ((enum_mbus_code_spec ds90ub940_probe { index := 0, code := 0 }).2.2.1 (by decide)).1,
   (enum_mbus_code_spec ds90ub940_probe { index := 1, code := 0 }).2.1.mpr (by decide),
   (enum_mbus_code_spec ds90ub940_probe { index := 0, code := 0 }).2.2.2⟩

/-- C6: for an index below the catalog size, `enum_frame_size` fails, with
`-EINVAL`, exactly when the requested code differs from the code of the
catalog entry at that index, and otherwise succeeds with minimum and maximum
width both the entry's width and minimum and maximum height both the entry's
height; for an index at least the catalog size it fails whatever the code. -/
theorem enum_frame_size_spec (fse : v4l2_subdev_frame_size_enum) :
    (fse.index ≥ output_modes.length → (ds90ub940_enum_frame_size fse).ret = -EINVAL) ∧
    (∀ m, output_modes[fse.index]? = some m →
      ((ds90ub940_enum_frame_size fse).ret ≠ 0 ↔ fse.code ≠ m.code) ∧
      ((ds90ub940_enum_frame_size fse).ret = -EINVAL ↔ fse.code ≠ m.code) ∧
      (fse.code = m.code →
        (ds90ub940_enum_frame_size fse).ret = 0 ∧
        (ds90ub940_enum_frame_size fse).fse.min_width = m.width ∧
        (ds90ub940_enum_frame_size fse).fse.max_width = m.width ∧
        (ds90ub940_enum_frame_size fse).fse.min_height = m.height ∧
        (ds90ub940_enum_frame_size fse).fse.max_height = m.height)) := by
  constructor
  · intro h
    unfold ds90ub940_enum_frame_size
    rw [dif_pos h]
  · intro m hm
    have hlt : fse.index < output_modes.length := by
      rcases Nat.lt_or_ge fse.index output_modes.length with h | h
      · exact h
      · rw [List.getElem?_eq_none h] at hm
        cases hm
    have h0 : fse.index = 0 := by
      simp only [output_modes, List.length_singleton] at hlt
      omega
    have hm0 : m = mode0 := by
      rw [h0] at hm
      simp only [output_modes, List.getElem?_cons_zero, Option.some.injEq] at hm
      rw [← hm]
      rfl
    have hget : (output_modes.get ⟨fse.index, hlt⟩).code = mode0.code := by
      simp only [h0]
      rfl
    unfold ds90ub940_enum_frame_size
    rw [dif_neg (by omega)]
    by_cases hc : fse.code = m.code
    · have hc1 : ¬ fse.code ≠ (output_modes.get ⟨fse.index, hlt⟩).code := by
        rw [hget, ← hm0]
        exact fun hne => hne hc
      rw [if_neg hc1]
      refine ⟨?_, ?_, ?_⟩
      · simp [hc]
      · simp [hc, EINVAL]
      · intro _
        rw [hm0]
        exact ⟨rfl, rfl, rfl, rfl, rfl⟩
    · have hc1 : fse.code ≠ (output_modes.get ⟨fse.index, hlt⟩).code := by
        rw [hget, ← hm0]
        exact hc
      rw [if_pos hc1]
      refine ⟨?_, ?_, ?_⟩
      · simp [hc, EINVAL]
      · simp [hc]
      · intro h
        exact absurd h hc

/-- C6, witness: index 0 with the catalog's code succeeds with 1920x1200 as
both bounds, index 0 with another code fails, index 1 fails. -/
theorem enum_frame_size_spec_witness :
    ((ds90ub940_enum_frame_size
        { index := 0, code := MEDIA_BUS_FMT_BGR888_1X24, min_width := 0, max_width := 0,
          min_height := 0, max_height := 0 }).ret = 0 ∧
      (ds90ub940_enum_frame_size
        { index := 0, code := MEDIA_BUS_FMT_BGR888_1X24, min_width := 0, max_width := 0,
          min_height := 0, max_height := 0 }).fse.min_width = 1920 ∧
      (ds90ub940_enum_frame_size
        { index := 0, code := MEDIA_BUS_FMT_BGR888_1X24, min_width := 0, max_width := 0,
          min_height := 0, max_height := 0 }).fse.max_width = 1920 ∧
      (ds90ub940_enum_frame_size
        { index := 0, code := MEDIA_BUS_FMT_BGR888_1X24, min_width := 0, max_width := 0,
          min_height := 0, max_height := 0 }).fse.min_height = 1200 ∧
      (ds90ub940_enum_frame_size
        { index := 0, code := MEDIA_BUS_FMT_BGR888_1X24, min_width := 0, max_width := 0,
          min_height := 0, max_height := 0 }).fse.max_height = 1200) ∧
    (ds90ub940_enum_frame_size
        { index := 0, code := 7, min_width := 0, max_width := 0,
          min_height := 0, max_height := 0 }).ret = -EINVAL ∧
    (ds90ub940_enum_frame_size
        { index := 1, code := MEDIA_BUS_FMT_BGR888_1X24, min_width := 0, max_width := 0,
          min_height := 0, max_height := 0 }).ret = -EINVAL :=
  ⟨((enum_frame_size_spec
        { index := 0, code := MEDIA_BUS_FMT_BGR888_1X24, min_width := 0, max_width := 0,
          min_height := 0, max_height := 0 }).2 mode0 rfl).2.2 rfl,
   ((enum_frame_size_spec
        { index := 0, code := 7, min_width := 0, max_width := 0,
          min_height := 0, max_height := 0 }).2 mode0 rfl).2.1.mpr (by decide),
   (enum_frame_size_spec
        { index := 1, code := MEDIA_BUS_FMT_BGR888_1X24, min_width := 0, max_width := 0,
          min_height := 0, max_height := 0 }).1 (by decide)⟩

/-! ## Streaming state -/

/-- C7: right after `probe`, two calls `set_stream(2)` in a row both return
success and the second leaves the device unchanged, but the second call does
not take the early return: it emits the log event again. -/
theorem set_stream_twice_logs_again :
    (ds90ub940_set_stream ds90ub940_probe 2).ret = 0 ∧
    (ds90ub940_set_stream (ds90ub940_set_stream ds90ub940_probe 2).dev 2).ret = 0 ∧
    (ds90ub940_set_stream (ds90ub940_set_stream ds90ub940_probe 2).dev 2).dev =
      (ds90ub940_set_stream ds90ub940_probe 2).dev ∧
    (ds90ub940_set_stream (ds90ub940_set_stream ds90ub940_probe 2).dev 2).log = [2] ∧
    (ds90ub940_set_stream (ds90ub940_set_stream ds90ub940_probe 2).dev 2).log ≠ [] := by
  decide

/-- The two paths of `set_stream`: the early return, or the store with its
log event. -/
theorem set_stream_cases (dev : ds90ub940) (enable : Int) :
    ((if dev.streaming then (1 : Int) else 0) = enable ∧
      ds90ub940_set_stream dev enable = { dev := dev, log := [], ret := 0 }) ∨
    (¬ (if dev.streaming then (1 : Int) else 0) = enable ∧
      ds90ub940_set_stream dev enable =
        { dev := { dev with streaming := decide (enable ≠ 0) }, log := [enable], ret := 0 }) := by
  by_cases h : (if dev.streaming then (1 : Int) else 0) = enable
  · left
    refine ⟨h, ?_⟩
    unfold ds90ub940_set_stream
    rw [if_pos h]
  · right
    refine ⟨h, ?_⟩
    unfold ds90ub940_set_stream
    rw [if_neg h]

/-- For every `enable`, two calls in a row both return success and the second
leaves every device field as the first left it. -/
theorem set_stream_twice_state (dev : ds90ub940) (enable : Int) :
    (ds90ub940_set_stream dev enable).ret = 0 ∧
    (ds90ub940_set_stream (ds90ub940_set_stream dev enable).dev enable).ret = 0 ∧
    (ds90ub940_set_stream (ds90ub940_set_stream dev enable).dev enable).dev =
      (ds90ub940_set_stream dev enable).dev := by
  rcases set_stream_cases dev enable with ⟨h, e1⟩ | ⟨h, e1⟩
  · have e2 : ds90ub940_set_stream (ds90ub940_set_stream dev enable).dev enable =
        { dev := dev, log := [], ret := 0 } := by rw [e1]; exact e1
    rw [e2, e1]
    exact ⟨rfl, rfl, rfl⟩
  · rcases set_stream_cases { dev with streaming := decide (enable ≠ 0) } enable
      with ⟨_, e2⟩ | ⟨_, e2⟩
    · have e3 : ds90ub940_set_stream (ds90ub940_set_stream dev enable).dev enable =
          { dev := { dev with streaming := decide (enable ≠ 0) }, log := [], ret := 0 } := by
        rw [e1]; exact e2
      rw [e3, e1]
      exact ⟨rfl, rfl, rfl⟩
    · have e3 : ds90ub940_set_stream (ds90ub940_set_stream dev enable).dev enable =
          { dev := { dev with streaming := decide (enable ≠ 0) }, log := [enable], ret := 0 } := by
        rw [e1]; exact e2
      rw [e3, e1]
      exact ⟨rfl, rfl, rfl⟩

/-- For `enable` 0 or 1 the second of two calls in a row takes the early
return: success, same device, no log event. -/
theorem set_stream_twice_bool (dev : ds90ub940) (enable : Int)
    (h : enable = 0 ∨ enable = 1) :
    ds90ub940_set_stream (ds90ub940_set_stream dev enable).dev enable =
      { dev := (ds90ub940_set_stream dev enable).dev, log := [], ret := 0 } := by
  obtain ⟨fmt, mode, streaming⟩ := dev
  rcases h with h | h <;> subst h <;> cases streaming <;> rfl

end DS90UB940
